import Mathlib

/-!
Verification of the Generic Command Manager + Protocol Adapter framework of
buttplug-rs, shallowly embedded from:
  src/buttplug/src/device/protocol/lovense.rs
  src/buttplug/src/device/protocol/prettylove.rs
  src/buttplug/src/device/protocol/realov.rs
  src/buttplug/src/device/protocol/lelof1s.rs
Normalized intensities (Rust `f64` values in `[0,1]`) are embedded as `ℚ`;
device wire payloads are byte lists (`List ℕ`) or, for the Lovense string
protocol, the ASCII command `String`s. To keep every definition evaluable by
kernel reduction, the floor computations on `ℚ` are written fraction-free over
`num`/`den`; the bridge lemmas `ratFloorMulNat_eq_floor` and
`quantize_eq_floor` prove they coincide with the mathematical `⌊·⌋`.
-/

/-- Decidable equality on `Except`, so concrete runs of the embedded fallible
operations can be checked by `decide`. -/
instance {ε α : Type} [DecidableEq ε] [DecidableEq α] : DecidableEq (Except ε α) := fun x y =>
  match x, y with
  | .ok a, .ok b =>
    if h : a = b then isTrue (by rw [h]) else isFalse (by intro hh; cases hh; exact h rfl)
  | .error a, .error b =>
    if h : a = b then isTrue (by rw [h]) else isFalse (by intro hh; cases hh; exact h rfl)
  | .ok _, .error _ => isFalse (by intro h; cases h)
  | .error _, .ok _ => isFalse (by intro h; cases h)

namespace Buttplug

/-- Transport endpoints used by the embedded adapters (`Endpoint::Tx` / `Endpoint::Rx`). -/
inductive Endpoint
  | tx
  | rx
deriving DecidableEq, Repr

/-- `DeviceWriteCmd::new(endpoint, data, write_with_response)` for byte-payload protocols. -/
structure DeviceWriteCmd where
  endpoint : Endpoint
  data : List ℕ
  writeWithResponse : Bool
deriving DecidableEq, Repr

/-- The error cases reachable in the embedded code paths: the Command Manager's
validation errors, transport write failures, and
`ButtplugDeviceError::ProtocolSpecificError(proto, msg)`. -/
inductive ButtplugErr
  | cardinality
  | outOfRange
  | transport
  | protocolSpecific (proto : String) (msg : String)
deriving DecidableEq, Repr

/-- `messages::VibrateCmd`: the ordered per-feature targets of one vibrate
command (subcommand `j` addresses feature `j`; a single entry is a broadcast). -/
structure VibrateCmd where
  speeds : List ℚ
deriving DecidableEq, Repr

/-- `messages::RotateCmd`: ordered per-feature (speed, clockwise) pairs. -/
structure RotateCmd where
  rotations : List (ℚ × Bool)
deriving DecidableEq, Repr

/-- Events produced by a device's notification stream
(`ButtplugDeviceEvent::Notification(endpoint, bytes)` / `ButtplugDeviceEvent::Removed`).
The notification payload is embedded as the `String` the Rust code obtains via
`std::str::from_utf8`. -/
inductive DeviceEvent
  | notification (endpoint : String) (data : String)
  | removed
deriving DecidableEq, Repr

/-- Fraction-free `⌊t * k⌋` for `t : ℚ`, `k : ℕ` (`t * k = (t.num * k) / t.den`,
and `Int.fdiv` by the positive denominator is exactly the floor). -/
def ratFloorMulNat (t : ℚ) (k : ℕ) : ℤ :=
  (t.num * k).fdiv t.den

/-- Rust's saturating float-to-`u8` cast applied to `t * k` — i.e.
`(t * k as f64) as u8` as in the PrettyLove (`speed * 3.0`) and Realov
(`speed * 50.0`) adapters: truncation toward zero clamped to `[0, 255]`
(for `t < 0` the truncation is `≤ 0`, so the cast saturates to `0`). -/
def rustTruncU8Mul (t : ℚ) (k : ℕ) : ℕ :=
  if t.num < 0 then 0 else min 255 (ratFloorMulNat t k).toNat

/-- Modelled from the spec: the Command Manager quantizes a normalized target
`t ∈ [0,1]` "to its feature's step resolution via round-half-up", i.e.
`⌊t * s + 1/2⌋` (`generic_command_manager.rs` is not part of the provided
sources). Written fraction-free: `t * s + 1/2 = (2 * t.num * s + t.den) / (2 * t.den)`. -/
def quantize (t : ℚ) (s : ℕ) : ℕ :=
  ((2 * t.num * s + t.den).fdiv (2 * t.den)).toNat

/-- Modelled from the spec: the per-device `GenericCommandManager` state — the
per-feature step resolutions and the last-quantized-value-sent cache for
vibration, plus the (speed, direction) cache for rotation
(`generic_command_manager.rs` is not part of the provided sources). -/
structure GenericCommandManager where
  stepCounts : List ℕ
  vibCache : List ℕ
  rotStepCounts : List ℕ
  rotCache : List (ℕ × Bool)
deriving DecidableEq, Repr

/-- Modelled from the spec: `GenericCommandManager::update_vibration`
(`generic_command_manager.rs` is not part of the provided sources).
Validates that the subcommand count is 1 (broadcast) or exactly the feature
count, and that every target lies in `[0,1]`; expands a broadcast to one target
per feature; quantizes round-half-up; compares against the cache; unchanged
features yield `none`, changed features yield the new value and the cache is
updated; if every feature is unchanged the whole result is `none`. -/
def update_vibration (st : GenericCommandManager) (msg : VibrateCmd) :
    Except ButtplugErr (GenericCommandManager × Option (List (Option ℕ))) :=
  let n := st.stepCounts.length
  if msg.speeds.length ≠ 1 ∧ msg.speeds.length ≠ n then
    .error .cardinality
  else if msg.speeds.any (fun t => decide (t < 0) || decide (1 < t)) then
    .error .outOfRange
  else
    let targets := if msg.speeds.length = 1 then List.replicate n msg.speeds.headI else msg.speeds
    let quants := List.zipWith quantize targets st.stepCounts
    let slots := List.zipWith (fun q c => if q = c then (none : Option ℕ) else some q) quants st.vibCache
    if slots.all Option.isNone then
      .ok (st, none)
    else
      .ok ({ st with vibCache := quants }, some slots)

/-- Modelled from the spec: `GenericCommandManager::update_rotation`
(`generic_command_manager.rs` is not part of the provided sources). An
independent last-applied-direction flag is tracked per feature alongside the
quantized speed; a feature's slot is `none` exactly when neither its quantized
speed nor its direction changed. The Lovense caller indexes the returned
sequence directly, so the result is the per-feature slot list itself. -/
def update_rotation (st : GenericCommandManager) (msg : RotateCmd) :
    Except ButtplugErr (GenericCommandManager × List (Option (ℕ × Bool))) :=
  let n := st.rotStepCounts.length
  if msg.rotations.length ≠ 1 ∧ msg.rotations.length ≠ n then
    .error .cardinality
  else if msg.rotations.any (fun r => decide (r.1 < 0) || decide (1 < r.1)) then
    .error .outOfRange
  else
    let targets := if msg.rotations.length = 1 then List.replicate n msg.rotations.headI else msg.rotations
    let quants := List.zipWith (fun tc s => (quantize tc.1 s, tc.2)) targets st.rotStepCounts
    let slots := List.zipWith (fun q c => if q = c then (none : Option (ℕ × Bool)) else some q) quants st.rotCache
    .ok ({ st with rotCache := quants }, slots)

/-- `cmds.windows(2).all(|w| w[0] == w[1])` from `Lovense::handle_vibrate_cmd`:
every adjacent pair of slots (including `None`s) is equal. -/
def allAdjEq : List (Option ℕ) → Bool
  | [] => true
  | [_] => true
  | a :: b :: t => (a == b) && allAdjEq (b :: t)

/-- The `for (i, cmd) in cmds.iter().enumerate()` loop of
`Lovense::handle_vibrate_cmd`: one `format!("Vibrate{}:{};", i + 1, speed)`
write per `Some` slot, skipping `None` slots. -/
def perFeatureWrites : ℕ → List (Option ℕ) → List String
  | _, [] => []
  | i, none :: t => perFeatureWrites (i + 1) t
  | i, some v :: t =>
      ("Vibrate" ++ toString (i + 1) ++ ":" ++ toString v ++ ";") :: perFeatureWrites (i + 1) t

/-- `Lovense::handle_vibrate_cmd`, translation part: run
`manager.update_vibration(&msg, false)`; on `None` do nothing; on `Some cmds`,
if `cmds[0].is_some() && (cmds.len() == 1 || cmds.windows(2).all(|w| w[0] == w[1]))`
issue the single aggregate `format!("Vibrate:{};", cmds[0].unwrap())` write,
otherwise one indexed write per changed feature. Returns the post state and
the ordered sequence of `Endpoint::Tx` writes the call issues (the `cmds = []`
case, where the Rust indexing `cmds[0]` would panic, is unreachable: the
manager never returns `Some []`). -/
def lovense_handle_vibrate_cmd (st : GenericCommandManager) (msg : VibrateCmd) :
    GenericCommandManager × Except ButtplugErr (List String) :=
  match update_vibration st msg with
  | .error e => (st, .error e)
  | .ok (st2, none) => (st2, .ok [])
  | .ok (st2, some cmds) =>
    match cmds with
    | [] => (st2, .ok [])
    | some v :: rest =>
      if rest.isEmpty || allAdjEq (some v :: rest) then
        (st2, .ok ["Vibrate:" ++ toString v ++ ";"])
      else
        (st2, .ok (perFeatureWrites 0 (some v :: rest)))
    | none :: rest => (st2, .ok (perFeatureWrites 0 (none :: rest)))

/-- One `fut.await?` chain over the planned writes: `oracle i` tells whether
the `i`-th transport write succeeds. Returns the writes actually issued (the
failing write included, nothing after it) and whether all succeeded. -/
def execWrites (oracle : ℕ → Bool) : ℕ → List String → List String × Bool
  | _, [] => ([], true)
  | i, w :: ws =>
    if oracle i then
      (w :: (execWrites oracle (i + 1) ws).1, (execWrites oracle (i + 1) ws).2)
    else
      ([w], false)

/-- `Lovense::handle_vibrate_cmd` including transport outcomes: the Command
Manager is updated first (inside the lock), then the planned writes are
awaited in order; the first failing `await?` aborts the rest and fails the
whole call. The manager state is never rolled back. -/
def lovense_vibrate_exec (st : GenericCommandManager) (msg : VibrateCmd) (oracle : ℕ → Bool) :
    GenericCommandManager × List String × Except ButtplugErr Unit :=
  match lovense_handle_vibrate_cmd st msg with
  | (st2, .error e) => (st2, [], .error e)
  | (st2, .ok ws) =>
    let p := execWrites oracle 0 ws
    (st2, p.1, if p.2 then .ok () else .error .transport)

/-- The full Lovense adapter state: the shared Command Manager plus the
adapter's own `rotation_direction: AtomicBool` cache (initialized `false`). -/
structure LovenseState where
  mgr : GenericCommandManager
  rotationDirection : Bool
deriving DecidableEq, Repr

/-- The possible outcomes of `Lovense::handle_rotate_cmd`: success with the
ordered writes issued, a propagated error, or a Rust panic (the code indexes
`result[0]`, which panics when the manager returns an empty slot list). -/
inductive RotateOutcome
  | ok (st : LovenseState) (writes : List String)
  | err (e : ButtplugErr)
  | panicked
deriving DecidableEq, Repr

/-- `Lovense::handle_rotate_cmd`: run `manager.update_rotation(&msg)`; if
`result[0]` is `Some((speed, clockwise))`, write `format!("Rotate:{};", speed)`;
then, if the cached `rotation_direction` differs from `clockwise`, store the
new direction and write `"RotateChange;"` as a second write. -/
def lovense_handle_rotate_cmd (st : LovenseState) (msg : RotateCmd) : RotateOutcome :=
  match update_rotation st.mgr msg with
  | .error e => .err e
  | .ok (mgr2, slots) =>
    match slots with
    | [] => .panicked
    | s0 :: _ =>
      match s0 with
      | none => .ok ⟨mgr2, st.rotationDirection⟩ []
      | some (speed, clockwise) =>
        let w1 := "Rotate:" ++ toString speed ++ ";"
        if st.rotationDirection != clockwise then
          .ok ⟨mgr2, clockwise⟩ [w1, "RotateChange;"]
        else
          .ok ⟨mgr2, st.rotationDirection⟩ [w1]

/-- `PrettyLove::handle_vibrate_cmd`: no Command Manager consultation at all.
The first subcommand's target is scaled by `3.0` and cast to `u8`; a zero byte
is replaced by `0xff`; exactly one `[0x00, speed]` write is issued on
`Endpoint::Tx`. `none` models the Rust panic on `msg.speeds[0]` when the
subcommand list is empty; targets beyond the first are ignored. -/
def prettylove_handle_vibrate_cmd (msg : VibrateCmd) : Option (List DeviceWriteCmd) :=
  match msg.speeds with
  | [] => none
  | t :: _ =>
    let speed := rustTruncU8Mul t 3
    let speed2 := if speed = 0 then 255 else speed
    some [⟨Endpoint.tx, [0x00, speed2], false⟩]

/-- `Realov::handle_vibrate_cmd`: no Command Manager consultation at all. The
first subcommand's target is scaled by `50.0` and cast to `u8`, and exactly
one `[0xc5, 0x55, speed, 0xaa]` write is issued on `Endpoint::Tx`. `none`
models the Rust panic on `msg.speeds[0]` when the subcommand list is empty. -/
def realov_handle_vibrate_cmd (msg : VibrateCmd) : Option (List DeviceWriteCmd) :=
  match msg.speeds with
  | [] => none
  | t :: _ =>
    let speed := rustTruncU8Mul t 50
    some [⟨Endpoint.tx, [0xc5, 0x55, speed, 0xaa], false⟩]

/-- `Lovense::new`: a fresh Command Manager (zero caches) for the resolved
attributes, with `rotation_direction` initialized to `false`. The attribute
bundle is embedded as the vibration and rotation step-count lists. -/
def lovense_new (vib rot : List ℕ) : LovenseState :=
  ⟨⟨vib, List.replicate vib.length 0, rot, List.replicate rot.length (0, false)⟩, false⟩

/-- A constructed Lovense protocol instance: resolved display name plus state. -/
structure LovenseProtocol where
  name : String
  state : LovenseState
deriving DecidableEq, Repr

/-- The possible outcomes of `Lovense::try_create`: a constructed protocol, a
returned error, or a Rust panic (`.unwrap()` on a failed Registry lookup or a
missing "en-us" display name). -/
inductive TryCreateResult
  | ok (p : LovenseProtocol)
  | err (e : ButtplugErr)
  | panicked
deriving DecidableEq, Repr

/-- `Lovense::try_create`: await the `Rx` subscribe, await the
`"DeviceType;"` identification write, take the first notification-stream
event; on `Notification` parse the identifier as the text before the first
`':'` (`split(':')[0]`), await the unsubscribe, then resolve
`configuration.get_attributes(&identifier).unwrap()` and the "en-us" display
name — both `.unwrap()` calls panic on a Registry miss. On a first event of
`Removed`, or an exhausted stream, return a `ProtocolSpecificError`. The
registry is embedded as a lookup from identifier to (locale→name list,
attribute step counts). -/
def lovense_try_create (subscribeOk writeOk unsubscribeOk : Bool)
    (events : List DeviceEvent)
    (config : String → Option (List (String × String) × (List ℕ × List ℕ))) :
    TryCreateResult :=
  if !subscribeOk then .err .transport
  else if !writeOk then .err .transport
  else
    match events.head? with
    | some (.notification _ n) =>
      let identifier := (n.splitOn ":").headI
      if !unsubscribeOk then .err .transport
      else
        match config identifier with
        | none => .panicked
        | some (names, attrs) =>
          match List.lookup "en-us" names with
          | none => .panicked
          | some nm => .ok ⟨nm, lovense_new attrs.1 attrs.2⟩
    | some .removed =>
      .err (.protocolSpecific "Lovense" "Lovense Device disconnected while getting DeviceType info.")
    | none =>
      .err (.protocolSpecific "Lovense" "Did not get DeviceType return from Lovense device in time")

/-! ### Bridge lemmas: the fraction-free floors are the mathematical floors -/

/-- The fraction-free `ratFloorMulNat` is exactly `⌊t * k⌋`. -/
theorem ratFloorMulNat_eq_floor (t : ℚ) (k : ℕ) :
    ratFloorMulNat t k = ⌊t * (k : ℚ)⌋ := by
  have hden : (0 : ℤ) ≤ (t.den : ℤ) := Int.natCast_nonneg t.den
  have hkey : t * (k : ℚ) = ((t.num * (k : ℤ) : ℤ) : ℚ) / ((t.den : ℕ) : ℚ) := by
    conv_lhs => rw [← Rat.num_div_den t]
    push_cast
    ring
  rw [ratFloorMulNat, hkey, Rat.floor_intCast_div_natCast, Int.fdiv_eq_ediv _ hden]

/-- The fraction-free `quantize` is round-half-up: `⌊t * s + 1/2⌋` (clamped to
`ℕ`), exactly the spec's quantization rule. -/
theorem quantize_eq_floor (t : ℚ) (s : ℕ) :
    quantize t s = (⌊t * (s : ℚ) + 1/2⌋).toNat := by
  have hd2 : (0 : ℤ) ≤ 2 * (t.den : ℤ) := by positivity
  have hdne : ((t.den : ℚ)) ≠ 0 := by
    exact_mod_cast t.den_ne_zero
  have hkey : t * (s : ℚ) + 1/2 =
      ((2 * t.num * (s : ℤ) + (t.den : ℤ) : ℤ) : ℚ) / (((2 * t.den : ℕ)) : ℚ) := by
    conv_lhs => rw [← Rat.num_div_den t]
    push_cast
    field_simp
    ring
  rw [quantize, hkey, Rat.floor_intCast_div_natCast, Int.fdiv_eq_ediv _ hd2]
  push_cast
  rfl

/-- For a target `t ∈ [0,1]` and scale `k ≤ 255`, the Rust cast
`(t * k as f64) as u8` is `⌊t * k⌋` (no clamping occurs). -/
theorem rustTruncU8Mul_eq_floor (t : ℚ) (k : ℕ) (h0 : 0 ≤ t) (h1 : t ≤ 1) (hk : k ≤ 255) :
    rustTruncU8Mul t k = (⌊t * (k : ℚ)⌋).toNat := by
  have hnum : ¬ t.num < 0 := not_lt.mpr (Rat.num_nonneg.mpr h0)
  have hle : ⌊t * (k : ℚ)⌋ ≤ (k : ℤ) := by
    calc ⌊t * (k : ℚ)⌋ ≤ ⌊((k : ℕ) : ℚ)⌋ := by
          apply Int.floor_le_floor
          nlinarith [Nat.cast_nonneg (α := ℚ) k]
      _ = (k : ℤ) := Int.floor_natCast k
  have htn : (⌊t * (k : ℚ)⌋).toNat ≤ k := Int.toNat_le.mpr hle
  rw [rustTruncU8Mul, if_neg hnum, ratFloorMulNat_eq_floor]
  exact min_eq_right (le_trans htn hk)

/-! ### Helper lemmas about the Command Manager and the Lovense write plan -/

/-- Comparing a quantized vector against itself marks every feature unchanged. -/
theorem zipWith_self_all_none (l : List ℕ) :
    (List.zipWith (fun q c => if q = c then (none : Option ℕ) else some q) l l).all
      Option.isNone = true := by
  induction l with
  | nil => rfl
  | cons a t ih => simp [ih]

/-- Modelled from the spec, idempotence of the Command Manager: re-submitting a
command that just succeeded reports every feature unchanged and leaves the
state fixed. -/
theorem update_vibration_idem (st : GenericCommandManager) (msg : VibrateCmd)
    (st2 : GenericCommandManager) (r : Option (List (Option ℕ)))
    (h : update_vibration st msg = .ok (st2, r)) :
    update_vibration st2 msg = .ok (st2, none) := by
  unfold update_vibration at h ⊢
  by_cases h1 : msg.speeds.length ≠ 1 ∧ msg.speeds.length ≠ st.stepCounts.length
  · simp only [if_pos h1] at h
    cases h
  · simp only [if_neg h1] at h
    by_cases h2 : msg.speeds.any (fun t => decide (t < 0) || decide (1 < t)) = true
    · simp only [if_pos h2] at h
      cases h
    · simp only [if_neg h2] at h
      by_cases h3 :
          (List.zipWith (fun q c => if q = c then (none : Option ℕ) else some q)
            (List.zipWith quantize
              (if msg.speeds.length = 1 then
                List.replicate st.stepCounts.length msg.speeds.headI
              else msg.speeds) st.stepCounts) st.vibCache).all Option.isNone = true
      · simp only [if_pos h3] at h
        obtain ⟨hst, hr⟩ := Prod.mk.injEq .. ▸ Except.ok.injEq .. ▸ h
        subst hst
        simp only [if_neg h1, if_neg h2, if_pos h3]
      · simp only [if_neg h3] at h
        obtain ⟨hst, hr⟩ := Prod.mk.injEq .. ▸ Except.ok.injEq .. ▸ h
        subst hst
        simp only [if_neg h1, if_neg h2]
        rw [if_pos (zipWith_self_all_none _)]

/-- The per-feature loop issues exactly one write per changed (`some`) slot. -/
theorem perFeatureWrites_length (i : ℕ) (l : List (Option ℕ)) :
    (perFeatureWrites i l).length = (l.filterMap id).length := by
  induction l generalizing i with
  | nil => rfl
  | cons c t ih =>
    cases c with
    | none => simp [perFeatureWrites, ih]
    | some v => simp [perFeatureWrites, ih]

/-- Awaiting the planned writes succeeds iff the transport accepts every one
of them. -/
theorem execWrites_ok_iff (oracle : ℕ → Bool) (i : ℕ) (ws : List String) :
    (execWrites oracle i ws).2 = true ↔ ∀ j, j < ws.length → oracle (i + j) = true := by
  induction ws generalizing i with
  | nil => simp [execWrites]
  | cons w t ih =>
    by_cases ho : oracle i = true
    · simp only [execWrites, ho, if_true, List.length_cons, ih (i + 1)]
      constructor
      · intro hall j hj
        cases j with
        | zero => simpa using ho
        | succ j2 =>
          have h := hall j2 (by omega)
          have e : i + 1 + j2 = i + (j2 + 1) := by omega
          rw [e] at h
          exact h
      · intro hall j hj
        have h := hall (j + 1) (by omega)
        have e : i + (j + 1) = i + 1 + j := by omega
        rw [e] at h
        exact h
    · have ho2 : oracle i = false := by simpa using ho
      simp only [execWrites, ho2, Bool.false_eq_true, if_false, List.length_cons]
      constructor
      · intro hh
        exact absurd hh (by simp)
      · intro hall
        have h0 := hall 0 (by omega)
        rw [Nat.add_zero] at h0
        exact absurd h0 ho

/-- Whatever batching branch is taken, `handle_vibrate_cmd` returns the state
produced by `update_vibration`. -/
theorem lovense_vibrate_state_eq (st : GenericCommandManager) (msg : VibrateCmd)
    (st2 : GenericCommandManager) (r : Option (List (Option ℕ)))
    (h : update_vibration st msg = .ok (st2, r)) :
    (lovense_handle_vibrate_cmd st msg).1 = st2 := by
  unfold lovense_handle_vibrate_cmd
  rw [h]
  rcases r with _ | cmds
  · rfl
  · rcases cmds with _ | ⟨c0, rest⟩
    · rfl
    · rcases c0 with _ | v
      · rfl
      · dsimp only
        split
        · rfl
        · rfl

/-! ### Claim theorems -/

/-- C1, amended: for the Command-Manager-backed Lovense adapter, vibrate
handling is idempotent — resubmitting the identical command to the state a
successful `update` produced issues zero transport writes and succeeds; and
whenever the update result is empty the handler returns success immediately
with no write issued. (The original claim's "for every adapter" fails on
PrettyLove, see the counterexample.) -/
theorem lovense_vibrate_idempotent (st : GenericCommandManager) (msg : VibrateCmd)
    (st2 : GenericCommandManager) (r : Option (List (Option ℕ)))
    (h : update_vibration st msg = .ok (st2, r)) :
    lovense_handle_vibrate_cmd st2 msg = (st2, .ok []) ∧
    (r = none → lovense_handle_vibrate_cmd st msg = (st2, .ok [])) := by
  refine ⟨?_, ?_⟩
  · have hidem := update_vibration_idem st msg st2 r h
    unfold lovense_handle_vibrate_cmd
    rw [hidem]
  · intro hr
    subst hr
    unfold lovense_handle_vibrate_cmd
    rw [h]

/-- Witness for C1's theorem: a 20-step single-feature Lovense, target 1/2 —
the first call writes (cache 0 → 10), the identical second call writes
nothing. -/
theorem lovense_vibrate_idempotent_witness :
    update_vibration ⟨[20], [0], [], []⟩ ⟨[mkRat 1 2]⟩ =
      .ok (⟨[20], [10], [], []⟩, some [some 10]) ∧
    lovense_handle_vibrate_cmd ⟨[20], [10], [], []⟩ ⟨[mkRat 1 2]⟩ =
      (⟨[20], [10], [], []⟩, .ok []) :=
  ⟨by decide,
    (lovense_vibrate_idempotent ⟨[20], [0], [], []⟩ ⟨[mkRat 1 2]⟩ ⟨[20], [10], [], []⟩
      (some [some 10]) (by decide)).1⟩

/-- C1 counterexample: the PrettyLove adapter keeps no per-device state and
never consults a Command Manager (`// TODO Convert to using generic command
manager`), so the identical second submission evaluates the same translation
again and issues one write — not the zero writes the claim requires of "every
adapter". -/
theorem prettylove_not_idempotent :
    prettylove_handle_vibrate_cmd ⟨[mkRat 1 2]⟩ = some [⟨Endpoint.tx, [0, 1], false⟩] ∧
    prettylove_handle_vibrate_cmd ⟨[mkRat 1 2]⟩ ≠ some [] := by decide

/-- C2, amended: on a non-empty update result, Lovense issues the single
aggregate `Vibrate:v;` write exactly when the first slot is `Some v` and the
slot list is constant (`cmds.len() == 1 || all adjacent slots equal`);
otherwise it issues one indexed write per changed feature — one write per
`Some` slot. ("All changed values equal" or "only one feature changed" do not
suffice when an unchanged feature leaves a `None` slot.) -/
theorem lovense_vibrate_batching (st : GenericCommandManager) (msg : VibrateCmd)
    (st2 : GenericCommandManager) (c0 : Option ℕ) (rest : List (Option ℕ))
    (h : update_vibration st msg = .ok (st2, some (c0 :: rest))) :
    (∀ v, c0 = some v → (rest.isEmpty || allAdjEq (some v :: rest)) = true →
        lovense_handle_vibrate_cmd st msg = (st2, .ok ["Vibrate:" ++ toString v ++ ";"])) ∧
    ((c0 = none ∨ (∀ v, c0 = some v → (rest.isEmpty || allAdjEq (some v :: rest)) = false)) →
        lovense_handle_vibrate_cmd st msg = (st2, .ok (perFeatureWrites 0 (c0 :: rest))) ∧
        (perFeatureWrites 0 (c0 :: rest)).length = ((c0 :: rest).filterMap id).length) := by
  constructor
  · intro v hv hcond
    subst hv
    unfold lovense_handle_vibrate_cmd
    rw [h]
    dsimp only
    rw [if_pos hcond]
  · intro hcase
    cases c0 with
    | none =>
      unfold lovense_handle_vibrate_cmd
      rw [h]
      exact ⟨rfl, perFeatureWrites_length 0 _⟩
    | some v =>
      rcases hcase with hnone | hfalse
      · exact absurd hnone (by simp)
      · have hf := hfalse v rfl
        unfold lovense_handle_vibrate_cmd
        rw [h]
        dsimp only
        rw [if_neg (by simp [hf])]
        exact ⟨rfl, perFeatureWrites_length 0 _⟩

/-- Witness for C2's theorem: two 20-step features, both targets 1/2 from a
zero cache — both slots change to the same value, so exactly one aggregate
write is issued. -/
theorem lovense_vibrate_batching_witness :
    update_vibration ⟨[20, 20], [0, 0], [], []⟩ ⟨[mkRat 1 2, mkRat 1 2]⟩ =
      .ok (⟨[20, 20], [10, 10], [], []⟩, some [some 10, some 10]) ∧
    lovense_handle_vibrate_cmd ⟨[20, 20], [0, 0], [], []⟩ ⟨[mkRat 1 2, mkRat 1 2]⟩ =
      (⟨[20, 20], [10, 10], [], []⟩, .ok ["Vibrate:" ++ toString 10 ++ ";"]) :=
  ⟨by decide,
    (lovense_vibrate_batching ⟨[20, 20], [0, 0], [], []⟩ ⟨[mkRat 1 2, mkRat 1 2]⟩
        ⟨[20, 20], [10, 10], [], []⟩ (some 10) [some 10] (by decide)).1 10 rfl (by decide)⟩

/-- C2 counterexample: two-feature Lovense at zero cache given targets
`[0, 1/2]` — only feature 1 changed (slots `[none, some 10]`), so by the claim
a single write encoding the shared value (`"Vibrate:10;"`) should be issued;
the code instead issues the index-addressed `"Vibrate2:10;"`. -/
theorem lovense_batching_counterexample :
    update_vibration ⟨[20, 20], [0, 0], [], []⟩ ⟨[0, mkRat 1 2]⟩ =
      .ok (⟨[20, 20], [0, 10], [], []⟩, some [none, some 10]) ∧
    lovense_handle_vibrate_cmd ⟨[20, 20], [0, 0], [], []⟩ ⟨[0, mkRat 1 2]⟩ =
      (⟨[20, 20], [0, 10], [], []⟩, .ok ["Vibrate2:10;"]) ∧
    "Vibrate2:10;" ≠ "Vibrate:10;" := by decide

/-- C3, amended: the PrettyLove and Realov adapters quantize by Rust's
truncating cast, not round-half-up — their transmitted bytes are
`⌊t * 3⌋` (with 0 encoded as 0xff) and `⌊t * 50⌋` respectively; the
(spec-modelled) Command Manager quantizer `quantize` is round-half-up, under
which the spec's 20-step examples 0.5 → 10 and 0.1 → 2 do hold. -/
theorem quantization_truncates (t : ℚ) (rest : List ℚ) (h0 : 0 ≤ t) (h1 : t ≤ 1) :
    prettylove_handle_vibrate_cmd ⟨t :: rest⟩ =
      some [⟨Endpoint.tx,
        [0, if (⌊t * (3 : ℚ)⌋).toNat = 0 then 255 else (⌊t * (3 : ℚ)⌋).toNat], false⟩] ∧
    realov_handle_vibrate_cmd ⟨t :: rest⟩ =
      some [⟨Endpoint.tx, [0xc5, 0x55, (⌊t * (50 : ℚ)⌋).toNat, 0xaa], false⟩] ∧
    quantize t 20 = (⌊t * (20 : ℚ) + 1/2⌋).toNat ∧
    quantize (mkRat 1 2) 20 = 10 ∧ quantize (mkRat 1 10) 20 = 2 := by
  have hp := rustTruncU8Mul_eq_floor t 3 h0 h1 (by norm_num)
  have hr := rustTruncU8Mul_eq_floor t 50 h0 h1 (by norm_num)
  refine ⟨?_, ?_, quantize_eq_floor t 20, by decide, by decide⟩
  · unfold prettylove_handle_vibrate_cmd
    dsimp only
    rw [hp]
    norm_cast
  · unfold realov_handle_vibrate_cmd
    dsimp only
    rw [hr]
    norm_cast

/-- Witness for C3's theorem at target 1/2. -/
theorem quantization_truncates_witness :
    (0 : ℚ) ≤ mkRat 1 2 ∧
    (prettylove_handle_vibrate_cmd ⟨[mkRat 1 2]⟩ =
      some [⟨Endpoint.tx,
        [0, if (⌊mkRat 1 2 * (3 : ℚ)⌋).toNat = 0 then 255
            else (⌊mkRat 1 2 * (3 : ℚ)⌋).toNat], false⟩] ∧
    realov_handle_vibrate_cmd ⟨[mkRat 1 2]⟩ =
      some [⟨Endpoint.tx, [0xc5, 0x55, (⌊mkRat 1 2 * (50 : ℚ)⌋).toNat, 0xaa], false⟩] ∧
    quantize (mkRat 1 2) 20 = (⌊mkRat 1 2 * (20 : ℚ) + 1/2⌋).toNat ∧
    quantize (mkRat 1 2) 20 = 10 ∧ quantize (mkRat 1 10) 20 = 2) :=
  ⟨by decide, quantization_truncates (mkRat 1 2) [] (by decide) (by decide)⟩

/-- C3 counterexample: on PrettyLove's 3-step scale, target 1/2 transmits the
truncated byte 1, while round-half-up quantization (the claim's rule, as in
`quantize`) yields 2. -/
theorem quantization_counterexample :
    prettylove_handle_vibrate_cmd ⟨[mkRat 1 2]⟩ = some [⟨Endpoint.tx, [0, 1], false⟩] ∧
    quantize (mkRat 1 2) 3 = 2 ∧ (1 : ℕ) ≠ 2 := by decide

/-- C4, amended: the Command-Manager-backed Lovense path rejects any command
containing a target outside `[0,1]` with a validation error before any
transport interaction — zero writes are issued and the state is unchanged.
(PrettyLove and Realov perform no validation at all, see the counterexample.) -/
theorem lovense_rejects_out_of_range (st : GenericCommandManager) (msg : VibrateCmd)
    (oracle : ℕ → Bool)
    (hcard : msg.speeds.length = 1 ∨ msg.speeds.length = st.stepCounts.length)
    (hbad : ∃ t, t ∈ msg.speeds ∧ (t < 0 ∨ 1 < t)) :
    lovense_handle_vibrate_cmd st msg = (st, .error .outOfRange) ∧
    lovense_vibrate_exec st msg oracle = (st, [], .error .outOfRange) := by
  have hnotcard : ¬(msg.speeds.length ≠ 1 ∧ msg.speeds.length ≠ st.stepCounts.length) := by
    rcases hcard with h1 | h1 <;> simp [h1]
  have hany : msg.speeds.any (fun t => decide (t < 0) || decide (1 < t)) = true := by
    rcases hbad with ⟨t, hmem, hlt⟩
    rw [List.any_eq_true]
    refine ⟨t, hmem, ?_⟩
    rcases hlt with hlt | hlt
    · simp [hlt]
    · simp [hlt]
  have hupd : update_vibration st msg = .error .outOfRange := by
    unfold update_vibration
    rw [if_neg hnotcard, if_pos hany]
  have hplan : lovense_handle_vibrate_cmd st msg = (st, .error .outOfRange) := by
    unfold lovense_handle_vibrate_cmd
    rw [hupd]
  refine ⟨hplan, ?_⟩
  unfold lovense_vibrate_exec
  rw [hplan]

/-- Witness for C4's theorem: a single-feature Lovense given target 3/2. -/
theorem lovense_rejects_out_of_range_witness :
    (1 : ℚ) < mkRat 3 2 ∧
    lovense_handle_vibrate_cmd ⟨[20], [0], [], []⟩ ⟨[mkRat 3 2]⟩ =
      (⟨[20], [0], [], []⟩, .error .outOfRange) :=
  ⟨by decide,
    (lovense_rejects_out_of_range ⟨[20], [0], [], []⟩ ⟨[mkRat 3 2]⟩ (fun _ => true)
      (Or.inl rfl) ⟨mkRat 3 2, by decide, Or.inr (by decide)⟩).1⟩

/-- C4 counterexample: Realov, given the out-of-domain target 3/2, performs no
validation: it truncates (1.5 · 50 → byte 75), issues exactly one write and
reports success — not the claimed ValidationError with zero writes. -/
theorem realov_accepts_out_of_range :
    realov_handle_vibrate_cmd ⟨[mkRat 3 2]⟩ =
      some [⟨Endpoint.tx, [0xc5, 0x55, 75, 0xaa], false⟩] ∧
    ([⟨Endpoint.tx, [0xc5, 0x55, 75, 0xaa], false⟩] : List DeviceWriteCmd).length = 1 := by
  decide

/-- C5 (confirmed): if the notification stream's first event is `Removed`, or
the stream is exhausted, `Lovense::try_create` returns a protocol-specific
handshake error — the `.err` result carries no protocol instance, so no
Command Manager is ever created. -/
theorem lovense_handshake_failure (events : List DeviceEvent) (u : Bool)
    (config : String → Option (List (String × String) × (List ℕ × List ℕ)))
    (h : events.head? = none ∨ events.head? = some DeviceEvent.removed) :
    ∃ s, lovense_try_create true true u events config =
      .err (.protocolSpecific "Lovense" s) := by
  rcases h with h | h
  · exact ⟨"Did not get DeviceType return from Lovense device in time",
      by simp [lovense_try_create, h]⟩
  · exact ⟨"Lovense Device disconnected while getting DeviceType info.",
      by simp [lovense_try_create, h]⟩

/-- Witness for C5's theorem: the stream yields `Removed` first. -/
theorem lovense_handshake_failure_witness :
    ∃ s, lovense_try_create true true true [DeviceEvent.removed] (fun _ => none) =
      .err (.protocolSpecific "Lovense" s) :=
  lovense_handshake_failure [DeviceEvent.removed] true (fun _ => none) (Or.inr rfl)

/-- C6 (confirmed, manager modelled from the spec): rotate translation on a
single-rotator Lovense whose adapter direction cache agrees with the manager's
stored direction. Same speed and same direction: zero writes. Any change:
a speed write is issued first; iff the commanded direction differs from the
cached one, a second `"RotateChange;"` write follows and the new direction is
recorded. -/
theorem lovense_rotate_direction_change (vs vc : List ℕ) (s cq : ℕ) (cd : Bool)
    (t : ℚ) (c : Bool) (h0 : 0 ≤ t) (h1 : t ≤ 1) :
    (quantize t s = cq → c = cd →
      lovense_handle_rotate_cmd ⟨⟨vs, vc, [s], [(cq, cd)]⟩, cd⟩ ⟨[(t, c)]⟩ =
        .ok ⟨⟨vs, vc, [s], [(cq, cd)]⟩, cd⟩ []) ∧
    (quantize t s = cq → c ≠ cd →
      lovense_handle_rotate_cmd ⟨⟨vs, vc, [s], [(cq, cd)]⟩, cd⟩ ⟨[(t, c)]⟩ =
        .ok ⟨⟨vs, vc, [s], [(cq, c)]⟩, c⟩
          ["Rotate:" ++ toString cq ++ ";", "RotateChange;"]) ∧
    (quantize t s ≠ cq → c = cd →
      lovense_handle_rotate_cmd ⟨⟨vs, vc, [s], [(cq, cd)]⟩, cd⟩ ⟨[(t, c)]⟩ =
        .ok ⟨⟨vs, vc, [s], [(quantize t s, cd)]⟩, cd⟩
          ["Rotate:" ++ toString (quantize t s) ++ ";"]) ∧
    (quantize t s ≠ cq → c ≠ cd →
      lovense_handle_rotate_cmd ⟨⟨vs, vc, [s], [(cq, cd)]⟩, cd⟩ ⟨[(t, c)]⟩ =
        .ok ⟨⟨vs, vc, [s], [(quantize t s, c)]⟩, c⟩
          ["Rotate:" ++ toString (quantize t s) ++ ";", "RotateChange;"]) := by
  have hupd : update_rotation ⟨vs, vc, [s], [(cq, cd)]⟩ ⟨[(t, c)]⟩ =
      .ok (⟨vs, vc, [s], [(quantize t s, c)]⟩,
        [if (quantize t s, c) = (cq, cd) then none else some (quantize t s, c)]) := by
    unfold update_rotation
    rw [if_neg (by simp), if_neg (by simp [not_lt.mpr h0, not_lt.mpr h1])]
    rfl
  refine ⟨?_, ?_, ?_, ?_⟩
  · intro hq hc
    subst hq
    subst hc
    unfold lovense_handle_rotate_cmd
    rw [hupd, if_pos rfl]
  · intro hq hc
    subst hq
    unfold lovense_handle_rotate_cmd
    rw [hupd, if_neg (by simp [hc])]
    dsimp only
    rw [if_pos (bne_iff_ne.mpr (Ne.symm hc))]
  · intro hq hc
    subst hc
    unfold lovense_handle_rotate_cmd
    rw [hupd, if_neg (by simp [hq])]
    dsimp only
    rw [if_neg (by simp)]
  · intro hq hc
    unfold lovense_handle_rotate_cmd
    rw [hupd, if_neg (by simp [hq])]
    dsimp only
    rw [if_pos (bne_iff_ne.mpr (Ne.symm hc))]

/-- Witness for C6's theorem: same speed (0 → quantized 0, cached 0), flipped
direction — exactly two writes, speed then direction-change, and the new
direction is recorded. -/
theorem lovense_rotate_direction_change_witness :
    quantize 0 20 = 0 ∧
    lovense_handle_rotate_cmd ⟨⟨[], [], [20], [(0, false)]⟩, false⟩ ⟨[(0, true)]⟩ =
      .ok ⟨⟨[], [], [20], [(0, true)]⟩, true⟩
        ["Rotate:" ++ toString 0 ++ ";", "RotateChange;"] :=
  ⟨by decide,
    (lovense_rotate_direction_change [] [] 20 0 false 0 true (by decide) (by decide)).2.1
      (by decide) (by decide)⟩

/-- C7 (confirmed, manager modelled from the spec): the Command Manager cache
is advanced before any transport write and is not rolled back on failure —
for every transport outcome the handler's post state is exactly the state
`update_vibration` produced — and the call succeeds iff every planned write
succeeds, so the first write failure fails the whole operation. -/
theorem lovense_write_failure_no_rollback (st : GenericCommandManager) (msg : VibrateCmd)
    (oracle : ℕ → Bool) (st2 : GenericCommandManager) (r : Option (List (Option ℕ)))
    (h : update_vibration st msg = .ok (st2, r)) :
    (lovense_vibrate_exec st msg oracle).1 = st2 ∧
    (∀ ws, lovense_handle_vibrate_cmd st msg = (st2, .ok ws) →
      ((lovense_vibrate_exec st msg oracle).2.2 = .ok () ↔
        ∀ j, j < ws.length → oracle j = true)) := by
  have hstate := lovense_vibrate_state_eq st msg st2 r h
  constructor
  · rcases hplan : lovense_handle_vibrate_cmd st msg with ⟨st3, res⟩
    rw [hplan] at hstate
    dsimp only at hstate
    subst hstate
    unfold lovense_vibrate_exec
    rw [hplan]
    cases res with
    | error e => rfl
    | ok ws => rfl
  · intro ws hws
    unfold lovense_vibrate_exec
    rw [hws]
    dsimp only
    have hiff : ((if (execWrites oracle 0 ws).2 then (.ok () : Except ButtplugErr Unit)
        else .error .transport) = .ok ()) ↔ (execWrites oracle 0 ws).2 = true := by
      by_cases hb : (execWrites oracle 0 ws).2 = true
      · simp [hb]
      · simp [hb]
    rw [hiff, execWrites_ok_iff]
    constructor
    · intro hall j hj
      have hh := hall j hj
      rwa [Nat.zero_add] at hh
    · intro hall j hj
      rw [Nat.zero_add]
      exact hall j hj

/-- Witness for C7's theorem: every write fails (`oracle _ = false`), yet the
post state holds the newly quantized cache value 10. -/
theorem lovense_write_failure_no_rollback_witness :
    update_vibration ⟨[20], [0], [], []⟩ ⟨[mkRat 1 2]⟩ =
      .ok (⟨[20], [10], [], []⟩, some [some 10]) ∧
    (lovense_vibrate_exec ⟨[20], [0], [], []⟩ ⟨[mkRat 1 2]⟩ (fun _ => false)).1 =
      ⟨[20], [10], [], []⟩ :=
  ⟨by decide,
    (lovense_write_failure_no_rollback ⟨[20], [0], [], []⟩ ⟨[mkRat 1 2]⟩ (fun _ => false)
      ⟨[20], [10], [], []⟩ (some [some 10]) (by decide)).1⟩

/-- C8 (code bug): when the identification handshake succeeds but the Registry
lookup for the parsed variant token misses, `Lovense::try_create` panics on
`configuration.get_attributes(&identifier).unwrap()` instead of handling the
miss as the normal outcome the Registry interface specifies. Concrete run:
notification payload "Z:11" parses to identifier "Z", the registry has no
entry, and the construction panics. -/
theorem lovense_registry_miss_panics :
    lovense_try_create true true true [DeviceEvent.notification "rx" "Z:11"] (fun _ => none) =
      .panicked := by decide

/-- C10 (confirmed): for any vibrate command with first target `t ∈ [0,1]`,
PrettyLove issues exactly one `Endpoint::Tx` write of the two bytes
`[0x00, b]` with `b = ⌊t * 3⌋`, except that a zero intensity byte is encoded
as 0xff — and every subcommand beyond the first is ignored. -/
theorem prettylove_wire_encoding (t : ℚ) (rest : List ℚ) (h0 : 0 ≤ t) (h1 : t ≤ 1) :
    prettylove_handle_vibrate_cmd ⟨t :: rest⟩ =
      some [⟨Endpoint.tx,
        [0, if (⌊t * (3 : ℚ)⌋).toNat = 0 then 255 else (⌊t * (3 : ℚ)⌋).toNat], false⟩] := by
  have hp := rustTruncU8Mul_eq_floor t 3 h0 h1 (by norm_num)
  unfold prettylove_handle_vibrate_cmd
  dsimp only
  rw [hp]
  norm_cast

/-- Witness for C10's theorem: target 1/10 — `⌊0.3⌋ = 0`, so the rest
intensity is put on the wire as 0xff, not 0x00. -/
theorem prettylove_wire_encoding_witness :
    (0 : ℚ) ≤ mkRat 1 10 ∧
    prettylove_handle_vibrate_cmd ⟨[mkRat 1 10]⟩ =
      some [⟨Endpoint.tx,
        [0, if (⌊mkRat 1 10 * (3 : ℚ)⌋).toNat = 0 then 255
            else (⌊mkRat 1 10 * (3 : ℚ)⌋).toNat], false⟩] :=
  ⟨by decide, prettylove_wire_encoding (mkRat 1 10) [] (by decide) (by decide)⟩

end Buttplug
